import Mathlib

/-
Verification of the MoeBlockchainCrawler / MoeCrawlerDBClient module
(nucypher/network/status/utility/moe_crawler.py).

The blockchain staking agent, the twisted LoopingCall scheduler and the
InfluxDB client are external collaborators: they are embedded as record
types of (possibly fallible) functions, and the crawler methods are
translated as state transformers over explicit state records.  Fallible
collaborator calls return `Except Err _`, mirroring Python exceptions.
-/

set_option autoImplicit false

universe u v

/-- Helper: `true` exactly when an `Except` value is a success.  Models
"this collaborator call did not raise". -/
def isOkE {ε : Type u} {α : Type v} : Except ε α → Bool
  | Except.ok _ => true
  | Except.error _ => false

/-- An opaque exception value raised by a collaborator call. -/
inductive Err where
  | err (msg : String)
deriving DecidableEq

theorem isOkE_iff {ε : Type u} {α : Type v} (x : Except ε α) :
    isOkE x = true ↔ ∃ v, x = Except.ok v := by
  cases x <;> simp [isOkE]

/-- Source constant `DB_MEASUREMENT` (moe_crawler.py line 26). -/
def DB_MEASUREMENT : String := "moe_network_info"

/-- Source constant `DB_NAME` (line 36). -/
def DB_NAME : String := "network"

/-- Source constant `DB_RETENTION_POLICY_NAME` (line 38). -/
def DB_RETENTION_POLICY_NAME : String := "network_info_retention"

/-- Source constant `DB_RETENTION_POLICY_PERIOD` (line 39). -/
def DB_RETENTION_POLICY_PERIOD : String := "5w"

/-- Source constant `DB_RETENTION_POLICY_REPLICATION` (line 40). -/
def DB_RETENTION_POLICY_REPLICATION : String := "1"

/-- The format arguments of `DB_LINE_PROTOCOL.format(...)` (lines 117-128).
`start_date`, `end_date`, `stake` and `locked_stake` are kept as their
rendered text (Python interpolates the float repr); the two period fields
and the timestamp are integers in the source. -/
structure LineFields where
  measurement : String
  staker_address : String
  worker_address : String
  start_date : String
  end_date : String
  stake : String
  locked_stake : String
  current_period : Nat
  last_confirmed_period : Nat
  timestamp : Nat
deriving DecidableEq

/-- Source constant `DB_LINE_PROTOCOL` (lines 27-35) applied to its format
arguments: the InfluxDB line-protocol record
`measurement,staker_address=<id> worker_address="<id>",start_date=...,
end_date=...,stake=...,locked_stake=...,current_period=<int>i,
last_confirmed_period=<int>i <timestamp>`. -/
def db_line_protocol (f : LineFields) : String :=
  f.measurement ++ ",staker_address=" ++ f.staker_address ++ " " ++
  "worker_address=\"" ++ f.worker_address ++ "\"," ++
  "start_date=" ++ f.start_date ++ "," ++
  "end_date=" ++ f.end_date ++ "," ++
  "stake=" ++ f.stake ++ "," ++
  "locked_stake=" ++ f.locked_stake ++ "," ++
  "current_period=" ++ toString f.current_period ++ "i," ++
  "last_confirmed_period=" ++ toString f.last_confirmed_period ++ "i " ++
  toString f.timestamp

/-- The Economics Collaborator (the blockchain staking agent plus the
economics helpers), an external dependency of the crawler.  Calls that hit
the blockchain are fallible (`Except Err _`); `nu_from_nunits` and
`datetime_at_period` are the pure renderings
`float(NU.from_nunits(x).to_tokens())` and
`datetime_at_period(p, seconds_per_period).datetime().timestamp()` used at
lines 99-111. -/
structure StakingAgent where
  getBlockTimestamp : Except Err Nat
  get_current_period : Except Err Nat
  abridged_nodes : Except Err (List String)
  get_worker_from_staker : String → Except Err String
  owned_tokens : String → Except Err Nat
  get_locked_tokens : String → Except Err Nat
  stake_bounds : String → Except Err (Nat × Nat)
  get_last_active_period : String → Except Err Nat
  get_all_locked_tokens : Nat → Except Err Nat
  nu_from_nunits : Nat → String
  datetime_at_period : Nat → String

/-- Body of the per-staker loop of `_learn_about_nodes` (lines 95-128):
resolve the worker, fetch owned and locked tokens, compute the stake
window bounds, fetch the last confirmed period, and render one
line-protocol record.  Any collaborator error propagates. -/
def process_staker (a : StakingAgent) (current_period block_time : Nat)
    (staker_address : String) : Except Err String :=
  match a.get_worker_from_staker staker_address with
  | Except.error e => Except.error e
  | Except.ok worker =>
    match a.owned_tokens staker_address with
    | Except.error e => Except.error e
    | Except.ok stake =>
      let staked_nu_tokens := a.nu_from_nunits stake
      match a.get_locked_tokens staker_address with
      | Except.error e => Except.error e
      | Except.ok locked =>
        let locked_nu_tokens := a.nu_from_nunits locked
        match a.stake_bounds staker_address with
        | Except.error e => Except.error e
        | Except.ok bounds =>
          let start_date := a.datetime_at_period bounds.1
          let end_date := a.datetime_at_period bounds.2
          match a.get_last_active_period staker_address with
          | Except.error e => Except.error e
          | Except.ok last_confirmed_period =>
            Except.ok (db_line_protocol
              { measurement := DB_MEASUREMENT,
                staker_address := staker_address,
                worker_address := worker,
                start_date := start_date,
                end_date := end_date,
                stake := staked_nu_tokens,
                locked_stake := locked_nu_tokens,
                current_period := current_period,
                last_confirmed_period := last_confirmed_period,
                timestamp := block_time })

instance instDecEqExcept {ε : Type u} {α : Type v} [DecidableEq ε]
    [DecidableEq α] : DecidableEq (Except ε α) := fun x y =>
  match x, y with
  | Except.ok a, Except.ok b =>
      if h : a = b then Decidable.isTrue (by rw [h])
      else Decidable.isFalse (by simp [h])
  | Except.error a, Except.error b =>
      if h : a = b then Decidable.isTrue (by rw [h])
      else Decidable.isFalse (by simp [h])
  | Except.ok _, Except.error _ => Decidable.isFalse (by simp)
  | Except.error _, Except.ok _ => Decidable.isFalse (by simp)

/-- The warning logged at lines 136-137 when `write_points` reports
failure. -/
def unable_to_write_warning (block_time current_period : Nat) : String :=
  "Unable to write to database " ++ DB_NAME ++ " at " ++ toString block_time
    ++ " | Period " ++ toString current_period

/-- Observable outcome of one run of `_learn_about_nodes`: the returned or
raised value, the batches submitted to `write_points`, and the warnings
logged. -/
structure NodesCycle where
  result : Except Err Unit
  writes : List (List String)
  warns : List String
deriving DecidableEq

/-- `_learn_about_nodes` (lines 85-137).  `write_points` is the InfluxDB
client collaborator: it receives the whole batch once and reports success
as a Bool (line 130).  An exception in any collaborator call aborts the
cycle before the single batched write. -/
def learn_nodes_cycle (a : StakingAgent) (write_points : List String → Bool) :
    NodesCycle :=
  match a.getBlockTimestamp with
  | Except.error e => ⟨Except.error e, [], []⟩
  | Except.ok block_time =>
    match a.get_current_period with
    | Except.error e => ⟨Except.error e, [], []⟩
    | Except.ok current_period =>
      match a.abridged_nodes with
      | Except.error e => ⟨Except.error e, [], []⟩
      | Except.ok nodes_dict =>
        match nodes_dict.mapM (process_staker a current_period block_time) with
        | Except.error e => ⟨Except.error e, [], []⟩
        | Except.ok data =>
          if write_points data then ⟨Except.ok (), [data], []⟩
          else ⟨Except.ok (), [data],
                [unable_to_write_warning block_time current_period]⟩

/-- Errors raised by the twisted `LoopingCall` collaborator: starting an
already running call or stopping a stopped one fails an assertion. -/
inductive TaskErr where
  | alreadyRunning
  | notRunning
deriving DecidableEq

/-- The scheduler collaborator `twisted.internet.task.LoopingCall`:
`running` is its liveness flag, `interval` the interval passed to the last
`start`, and `startedNow` whether that `start` fired the task
immediately (`now=True`). -/
structure LoopingCall where
  running : Bool := false
  interval : Option Int := none
  startedNow : Bool := false
deriving DecidableEq

/-- `LoopingCall.start(interval, now)`: asserts the call is not already
running, then marks it running with the given interval, firing immediately
when `now` is true. -/
def LoopingCall.start (t : LoopingCall) (interval : Int) (now : Bool) :
    Except TaskErr LoopingCall :=
  if t.running then Except.error TaskErr.alreadyRunning
  else Except.ok { running := true, interval := some interval, startedNow := now }

/-- `LoopingCall.stop()`: asserts the call is running, then marks it
stopped. -/
def LoopingCall.stop (t : LoopingCall) : Except TaskErr LoopingCall :=
  if t.running then Except.ok { t with running := false }
  else Except.error TaskErr.notRunning

/-- An InfluxDB client connection as constructed at lines 55 and 156:
`InfluxDBClient(host='localhost', port=8086, database=DB_NAME)`. -/
structure InfluxConn where
  host : String
  port : Nat
  database : String
deriving DecidableEq

/-- Mutable state of a `MoeBlockchainCrawler` instance: the two looping
tasks, the store connection (`None` after `stop()`), the configuration
set in `__init__` (lines 42-58) and the in-memory snapshot dict, an
ordered association list whose only used key is
`"future_locked_tokens"`, each value a period-to-tokens mapping. -/
structure MoeBlockchainCrawler where
  refresh_rate : Int
  restart_on_error : Bool
  node_learning_task : LoopingCall
  contract_learning_task : LoopingCall
  client : Option InfluxConn
  snapshot : List (String × List (Nat × Nat))
deriving DecidableEq

/-- `is_running` property (lines 176-182): true iff both looping tasks
are running. -/
def MoeBlockchainCrawler.is_running (c : MoeBlockchainCrawler) : Bool :=
  c.node_learning_task.running && c.contract_learning_task.running

/-- `start` (lines 149-163): if not already running, reopen the store
connection when it is `None`, then start the node-learning task at the
refresh rate and the contract-learning task at the refresh rate minus a
2-second offset, both with `now=True`. -/
def MoeBlockchainCrawler.start (c : MoeBlockchainCrawler) :
    Except TaskErr MoeBlockchainCrawler :=
  if c.is_running then Except.ok c
  else
    let client := match c.client with
      | none => some { host := "localhost", port := 8086, database := DB_NAME }
      | some cl => some cl
    let offset : Int := 2
    match c.node_learning_task.start c.refresh_rate true with
    | Except.error e => Except.error e
    | Except.ok nt =>
      match c.contract_learning_task.start (c.refresh_rate - offset) true with
      | Except.error e => Except.error e
      | Except.ok ct =>
        Except.ok { c with client := client, node_learning_task := nt,
                           contract_learning_task := ct }

/-- `stop` (lines 165-174): if running, close and clear the store
connection and stop both looping tasks; otherwise do nothing. -/
def MoeBlockchainCrawler.stop (c : MoeBlockchainCrawler) :
    Except TaskErr MoeBlockchainCrawler :=
  if c.is_running then
    match c.node_learning_task.stop with
    | Except.error e => Except.error e
    | Except.ok nt =>
      match c.contract_learning_task.stop with
      | Except.error e => Except.error e
      | Except.ok ct =>
        Except.ok { c with
        client := none, node_learning_task := nt,
                           contract_learning_task := ct }
  else Except.ok c

/-- `_handle_errors` (lines 139-147), the errback attached to both task
deferreds.  Returns how many `start()` calls it issues together with the
outcome of the issued call (the failure argument only feeds the log, so it
is not a parameter).  Note the code inspects `_node_learning_task.running`
whichever task failed. -/
def MoeBlockchainCrawler.handle_errors (c : MoeBlockchainCrawler) :
    Nat × Except TaskErr MoeBlockchainCrawler :=
  if c.restart_on_error then
    if !c.node_learning_task.running then (1, c.start)
    else (0, Except.ok c)
  else (0, Except.ok c)

/-- The two periodic tasks of the crawler; a task failure surfaces to
`_handle_errors` through the errback of the corresponding deferred. -/
inductive TaskKind where
  | node
  | contract
deriving DecidableEq

/-- Whether the looping task backing the given kind is currently
running. -/
def MoeBlockchainCrawler.task_running (c : MoeBlockchainCrawler) :
    TaskKind → Bool
  | TaskKind.node => c.node_learning_task.running
  | TaskKind.contract => c.contract_learning_task.running

/-- The `_learn_about_nodes` task body viewed as a method on the crawler:
it computes one `NodesCycle` against the collaborators and leaves the
crawler state untouched (the method assigns no attribute of `self`). -/
def MoeBlockchainCrawler.learn_about_nodes (c : MoeBlockchainCrawler)
    (a : StakingAgent) (write_points : List String → Bool) :
    NodesCycle × MoeBlockchainCrawler :=
  (learn_nodes_cycle a write_points, c)

/-- Python dict item assignment `m[k] = v` on an ordered association
list: replace the value at the first matching key in place, or append a
new entry. -/
def set_key {α : Type u} : List (String × α) → String → α → List (String × α)
  | [], k, v => [(k, v)]
  | kv :: rest, k, v =>
      if kv.1 == k then (k, v) :: rest else kv :: set_key rest k v

/-- Python dict lookup `m[k]` on an ordered association list, as an
`Option`. -/
def lookup_key {α : Type u} (m : List (String × α)) (k : String) : Option α :=
  (m.find? (fun kv => kv.1 == k)).map Prod.snd

/-- `period_range = range(1, 365+1)` (line 81). -/
def period_range : List Nat := List.range' 1 365

/-- One entry of the dict comprehension at line 82:
`day: get_all_locked_tokens(day)`, with a collaborator error
propagating. -/
def fetch_locked_tokens (a : StakingAgent) (day : Nat) :
    Except Err (Nat × Nat) :=
  match a.get_all_locked_tokens day with
  | Except.error e => Except.error e
  | Except.ok v => Except.ok (day, v)

/-- `_learn_about_contracts` (lines 80-83): build the full
period-to-tokens mapping over periods 1..365 in memory, then assign it to
the snapshot dict under key `'future_locked_tokens'` in one step. -/
def MoeBlockchainCrawler.learn_about_contracts (c : MoeBlockchainCrawler)
    (a : StakingAgent) : Except Err MoeBlockchainCrawler :=
  match period_range.mapM (fetch_locked_tokens a) with
  | Except.error e => Except.error e
  | Except.ok token_counter =>
      Except.ok { c with
        snapshot := set_key c.snapshot "future_locked_tokens" token_counter }

/-- One entry of the list returned by `client.get_list_database()`: a dict
with a `'name'` key. -/
structure InfluxDatabase where
  name : String
deriving DecidableEq

/-- A retention policy as created by `client.create_retention_policy`
(lines 72-76). -/
structure RetentionPolicy where
  name : String
  duration : String
  replication : String
  database : String
  is_default : Bool
deriving DecidableEq

/-- State of the InfluxDB server relevant to schema bootstrap: the list of
databases and the list of retention policies. -/
structure InfluxState where
  databases : List InfluxDatabase
  retention_policies : List RetentionPolicy
deriving DecidableEq

/-- An operation performed against the store during schema bootstrap. -/
inductive DbOp where
  | createDatabase (name : String)
  | createRetentionPolicy (p : RetentionPolicy)
deriving DecidableEq

/-- `client.create_database(name)` on the modelled server state. -/
def create_database (s : InfluxState) (n : String) : InfluxState :=
  { s with databases := s.databases ++ [{ name := n }] }

/-- `client.create_retention_policy(...)` on the modelled server state. -/
def create_retention_policy (s : InfluxState) (p : RetentionPolicy) :
    InfluxState :=
  { s with retention_policies := s.retention_policies ++ [p] }

/-- The retention policy created at lines 72-76:
`network_info_retention`, duration `5w`, replication `1`, on database
`network`, marked default. -/
def network_info_retention_policy : RetentionPolicy :=
  { name := DB_RETENTION_POLICY_NAME,
    duration := DB_RETENTION_POLICY_PERIOD,
    replication := DB_RETENTION_POLICY_REPLICATION,
    database := DB_NAME,
    is_default := true }

/-- `_ensure_db_exists` (lines 64-78): list databases, filter by
`DB_NAME`; when none is found, create the database and its retention
policy; otherwise do nothing.  Returns the resulting server state and the
list of mutation operations performed. -/
def ensure_db_exists (s : InfluxState) : InfluxState × List DbOp :=
  let found_db := s.databases.filter (fun db => db.name == DB_NAME)
  if found_db.length == 0 then
    let s1 := create_database s DB_NAME
    let s2 := create_retention_policy s1 network_info_retention_policy
    (s2, [DbOp.createDatabase DB_NAME,
          DbOp.createRetentionPolicy network_info_retention_policy])
  else (s, [])

/-- A row of the result set of the SUM query at lines 202-213: the day
bucket start time (epoch seconds, parsed from the rfc3339 `time` column)
and the value of `r['sum']`, which InfluxDB reports as null for an empty
bucket. -/
structure SumRow where
  time : Int
  sum : Option ℚ
deriving DecidableEq

/-- A row of the result set of the COUNT query at lines 231-239: the day
bucket start time and the value of `r['count']`. -/
structure CountRow where
  time : Int
  count : Option ℚ
deriving DecidableEq

/-- Structural embedding of the InfluxQL text built at lines 202-213: a
two-level query with a half-open time window `[time_ge, time_lt)`, an
inner SELECT with its tags, LAST-aggregation, source measurement and
grouping, and an outer aggregation with its grouping. -/
structure LockedTokensQuery where
  time_ge : Int
  time_lt : Int
  outer_select : String
  inner_select_tags : List String
  inner_last_field : String
  inner_from : String
  inner_group_by : List String
  outer_group_by : String
deriving DecidableEq

/-- The query text of `get_historical_locked_tokens_over_range`
(lines 202-213) with its two time bounds left as parameters:
`SELECT SUM(locked_stake) FROM (SELECT staker_address, current_period,
LAST(locked_stake) AS locked_stake FROM moe_network_info WHERE time >= lo
AND time < hi GROUP BY staker_address, time(1d)) GROUP BY time(1d)`. -/
def locked_tokens_query (lo hi : Int) : LockedTokensQuery :=
  { time_ge := lo,
    time_lt := hi,
    outer_select := "SUM(locked_stake)",
    inner_select_tags := ["staker_address", "current_period"],
    inner_last_field := "LAST(locked_stake) AS locked_stake",
    inner_from := DB_MEASUREMENT,
    inner_group_by := ["staker_address", "time(1d)"],
    outer_group_by := "time(1d)" }

/-- Structural embedding of the InfluxQL text built at lines 231-239 for
the staker-count series. -/
structure NumStakersQuery where
  time_ge : Int
  time_lt : Int
  outer_select : String
  inner_select_tags : List String
  inner_last_field : String
  inner_from : String
  inner_group_by : List String
  outer_group_by : String
deriving DecidableEq

/-- The query text of `get_historical_num_stakers_over_range`
(lines 231-239) with its two time bounds left as parameters:
`SELECT COUNT(staker_address) FROM (SELECT staker_address,
LAST(locked_stake) FROM moe_network_info WHERE time >= lo AND time < hi
GROUP BY staker_address, time(1d)) GROUP BY time(1d)`. -/
def num_stakers_query (lo hi : Int) : NumStakersQuery :=
  { time_ge := lo,
    time_lt := hi,
    outer_select := "COUNT(staker_address)",
    inner_select_tags := ["staker_address"],
    inner_last_field := "LAST(locked_stake)",
    inner_from := DB_MEASUREMENT,
    inner_group_by := ["staker_address", "time(1d)"],
    outer_group_by := "time(1d)" }

/-- The InfluxDB client held by `MoeCrawlerDBClient`, as the read
collaborator: each query method maps the issued query to the result rows
the server returns. -/
structure MoeCrawlerDBClient where
  query_sum : LockedTokensQuery → List SumRow
  query_count : NumStakersQuery → List CountRow

/-- `datetime(year=today.year, month=today.month, day=today.day, 0,0,0,0)`
(lines 198-200 and 227-229) on epoch seconds: floor the current UTC time
to the start of its day. -/
def midnight_utc (t : Int) : Int := 86400 * (Int.fdiv t 86400)

/-- The query issued by `get_historical_locked_tokens_over_range` for a
current time `now` and a range of `days` days:
`range_end` is midnight of today, `range_begin` is `range_end` minus
`days - 1` days, and the window runs to `range_end` plus one day
(lines 198-213). -/
def issued_locked_tokens_query (now : Int) (days : Nat) : LockedTokensQuery :=
  let range_end := midnight_utc now
  let range_begin := range_end - ((days : Int) - 1) * 86400
  locked_tokens_query range_begin (range_end + 86400)

/-- The query issued by `get_historical_num_stakers_over_range`
(lines 227-239), same range computation. -/
def issued_num_stakers_query (now : Int) (days : Nat) : NumStakersQuery :=
  let range_end := midnight_utc now
  let range_begin := range_end - ((days : Int) - 1) * 86400
  num_stakers_query range_begin (range_end + 86400)

/-- Loop body at lines 218-222: keep a result row as a series entry only
when `r['sum']` is truthy, that is neither null nor zero. -/
def locked_row_to_entry (r : SumRow) : Option (Int × ℚ) :=
  match r.sum with
  | none => none
  | some locked_stake =>
      if locked_stake = 0 then none else some (r.time, locked_stake)

/-- Loop body at lines 244-248: keep a result row as a series entry only
when `r['count']` is truthy, that is neither null nor zero. -/
def count_row_to_entry (r : CountRow) : Option (Int × ℚ) :=
  match r.count with
  | none => none
  | some cnt => if cnt = 0 then none else some (r.time, cnt)

/-- `get_historical_locked_tokens_over_range` (lines 197-224): issue the
two-level SUM query over the computed day range and collect the non-null,
non-zero day sums into the ordered day-to-sum mapping. -/
def get_historical_locked_tokens_over_range (client : MoeCrawlerDBClient)
    (now : Int) (days : Nat) : List (Int × ℚ) :=
  (client.query_sum (issued_locked_tokens_query now days)).filterMap
    locked_row_to_entry

/-- `get_historical_num_stakers_over_range` (lines 226-250): issue the
two-level COUNT query over the computed day range and collect the
non-null, non-zero day counts into the ordered day-to-count mapping. -/
def get_historical_num_stakers_over_range (client : MoeCrawlerDBClient)
    (now : Int) (days : Nat) : List (Int × ℚ) :=
  (client.query_count (issued_num_stakers_query now days)).filterMap
    count_row_to_entry

/-- Follows the wording of spec section 4.6: the locked-stake series
query covers the half-open range from today-midnight-UTC minus `days - 1`
days up to today-midnight-UTC plus one day, its inner query groups by
participant and 1-day bucket taking the LAST locked-stake value, and its
outer query sums those last values per day. -/
def spec_locked_tokens_query (today_midnight : Int) (days : Nat) :
    LockedTokensQuery :=
  { time_ge := today_midnight - ((days : Int) - 1) * 86400,
    time_lt := today_midnight + 86400,
    outer_select := "SUM(locked_stake)",
    inner_select_tags := ["staker_address", "current_period"],
    inner_last_field := "LAST(locked_stake) AS locked_stake",
    inner_from := "moe_network_info",
    inner_group_by := ["staker_address", "time(1d)"],
    outer_group_by := "time(1d)" }

/-- A store whose batched write always succeeds. -/
def wr_true : List String → Bool := fun _ => true

/-- A store whose batched write always reports failure. -/
def wr_false : List String → Bool := fun _ => false

/-- A concrete Economics Collaborator on which every call succeeds,
knowing a single staker. -/
def agent_ok : StakingAgent :=
  { getBlockTimestamp := Except.ok 1000,
    get_current_period := Except.ok 7,
    abridged_nodes := Except.ok ["0xabc"],
    get_worker_from_staker := fun _ => Except.ok "0xworker",
    owned_tokens := fun _ => Except.ok 15000,
    get_locked_tokens := fun _ => Except.ok 12000,
    stake_bounds := fun _ => Except.ok (5, 30),
    get_last_active_period := fun _ => Except.ok 6,
    get_all_locked_tokens := fun day => Except.ok (2 * day),
    nu_from_nunits := fun n => toString n ++ ".0",
    datetime_at_period := fun p => toString (p * 604800) ++ ".0" }

/-- A concrete collaborator whose block-timestamp call raises. -/
def agent_block_failure : StakingAgent :=
  { agent_ok with
    getBlockTimestamp := Except.error (Err.err "connection lost") }

/-- A looping task that is currently running. -/
def running_task : LoopingCall :=
  { running := true, interval := some 60, startedNow := true }

/-- A concrete crawler with both tasks stopped. -/
def crawler_stopped : MoeBlockchainCrawler :=
  { refresh_rate := 60,
    restart_on_error := true,
    node_learning_task := {},
    contract_learning_task := {},
    client := some { host := "localhost", port := 8086, database := DB_NAME },
    snapshot := [("future_locked_tokens", [(1, 11)])] }

/-- A concrete crawler with both tasks running. -/
def crawler_running : MoeBlockchainCrawler :=
  { crawler_stopped with
    node_learning_task := running_task,
    contract_learning_task := running_task }

/-- A concrete crawler after a contract-task failure: the contract task
has stopped while the node task is still running. -/
def crawler_contract_failed : MoeBlockchainCrawler :=
  { crawler_stopped with node_learning_task := running_task }

/-- A concrete crawler after a node-task failure: the node task has
stopped while the contract task is still running. -/
def crawler_node_failed : MoeBlockchainCrawler :=
  { crawler_stopped with contract_learning_task := running_task }

/-- A concrete read client returning fixed result rows: one day with a
positive sum, one day with sum zero, one empty (null) day. -/
def db_client_sample : MoeCrawlerDBClient :=
  { query_sum := fun _ => [⟨0, some 5⟩, ⟨86400, some 0⟩, ⟨172800, none⟩],
    query_count := fun _ => [⟨0, some 3⟩, ⟨86400, none⟩] }

/-- A concrete InfluxDB server state with no databases. -/
def influx_empty : InfluxState := { databases := [], retention_policies := [] }

theorem except_bind_ok {ε : Type u} {α β : Type v} (x : α)
    (f : α → Except ε β) : (Except.ok x >>= f : Except ε β) = f x := rfl

theorem process_staker_ok (a : StakingAgent) (cp bt : Nat) (s : String)
    (h1 : isOkE (a.get_worker_from_staker s) = true)
    (h2 : isOkE (a.owned_tokens s) = true)
    (h3 : isOkE (a.get_locked_tokens s) = true)
    (h4 : isOkE (a.stake_bounds s) = true)
    (h5 : isOkE (a.get_last_active_period s) = true) :
    ∃ f : LineFields, process_staker a cp bt s = Except.ok (db_line_protocol f)
      ∧ f.measurement = DB_MEASUREMENT ∧ f.staker_address = s
      ∧ f.current_period = cp ∧ f.timestamp = bt := by
  rw [isOkE_iff] at h1 h2 h3 h4 h5
  obtain ⟨w, hw⟩ := h1
  obtain ⟨st, hst⟩ := h2
  obtain ⟨lk, hlk⟩ := h3
  obtain ⟨b, hb⟩ := h4
  obtain ⟨lcp, hlcp⟩ := h5
  exact ⟨{ measurement := DB_MEASUREMENT, staker_address := s,
           worker_address := w,
           start_date := a.datetime_at_period b.1,
           end_date := a.datetime_at_period b.2,
           stake := a.nu_from_nunits st,
           locked_stake := a.nu_from_nunits lk,
           current_period := cp, last_confirmed_period := lcp,
           timestamp := bt },
         by simp [process_staker, hw, hst, hlk, hb, hlcp],
         rfl, rfl, rfl, rfl⟩

theorem mapM_line_records (a : StakingAgent) (cp bt : Nat) (ns : List String)
    (hok : ∀ s ∈ ns, isOkE (a.get_worker_from_staker s) = true
      ∧ isOkE (a.owned_tokens s) = true
      ∧ isOkE (a.get_locked_tokens s) = true
      ∧ isOkE (a.stake_bounds s) = true
      ∧ isOkE (a.get_last_active_period s) = true) :
    ∃ data : List String,
      ns.mapM (process_staker a cp bt) = Except.ok data
      ∧ data.length = ns.length
      ∧ ∀ r ∈ data, ∃ f : LineFields, r = db_line_protocol f
          ∧ f.measurement = DB_MEASUREMENT ∧ f.current_period = cp
          ∧ f.timestamp = bt := by
  induction ns with
  | nil => exact ⟨[], rfl, rfl, by simp⟩
  | cons s rest ih =>
    obtain ⟨h1, h2, h3, h4, h5⟩ := hok s (by simp)
    obtain ⟨f, hf, hfm, hfs, hfc, hft⟩ := process_staker_ok a cp bt s h1 h2 h3 h4 h5
    obtain ⟨data, hdata, hlen, hall⟩ := ih (fun x hx => hok x (by simp [hx]))
    refine ⟨db_line_protocol f :: data, ?_, by simp [hlen], ?_⟩
    · rw [List.mapM_cons, hf, except_bind_ok, hdata, except_bind_ok]; rfl
    · intro r hr
      rcases List.mem_cons.mp hr with h | h
      · exact ⟨f, h, hfm, hfc, hft⟩
      · exact hall r h

theorem learn_nodes_cycle_reduce (a : StakingAgent)
    (write_points : List String → Bool) (bt cp : Nat) (ns : List String)
    (hbt : a.getBlockTimestamp = Except.ok bt)
    (hcp : a.get_current_period = Except.ok cp)
    (hns : a.abridged_nodes = Except.ok ns) :
    learn_nodes_cycle a write_points =
      match ns.mapM (process_staker a cp bt) with
      | Except.error e => ⟨Except.error e, [], []⟩
      | Except.ok data =>
          if write_points data then ⟨Except.ok (), [data], []⟩
          else ⟨Except.ok (), [data], [unable_to_write_warning bt cp]⟩ := by
  unfold learn_nodes_cycle
  rw [hbt, hcp, hns]

theorem learn_nodes_cycle_err1 (a : StakingAgent)
    (write_points : List String → Bool) (e : Err)
    (hbt : a.getBlockTimestamp = Except.error e) :
    learn_nodes_cycle a write_points = ⟨Except.error e, [], []⟩ := by
  unfold learn_nodes_cycle
  rw [hbt]

theorem learn_nodes_cycle_err2 (a : StakingAgent)
    (write_points : List String → Bool) (bt : Nat) (e : Err)
    (hbt : a.getBlockTimestamp = Except.ok bt)
    (hcp : a.get_current_period = Except.error e) :
    learn_nodes_cycle a write_points = ⟨Except.error e, [], []⟩ := by
  unfold learn_nodes_cycle
  rw [hbt, hcp]

theorem learn_nodes_cycle_err3 (a : StakingAgent)
    (write_points : List String → Bool) (bt cp : Nat) (e : Err)
    (hbt : a.getBlockTimestamp = Except.ok bt)
    (hcp : a.get_current_period = Except.ok cp)
    (hns : a.abridged_nodes = Except.error e) :
    learn_nodes_cycle a write_points = ⟨Except.error e, [], []⟩ := by
  unfold learn_nodes_cycle
  rw [hbt, hcp, hns]

theorem learn_nodes_cycle_err4 (a : StakingAgent)
    (write_points : List String → Bool) (bt cp : Nat) (ns : List String)
    (e : Err)
    (hbt : a.getBlockTimestamp = Except.ok bt)
    (hcp : a.get_current_period = Except.ok cp)
    (hns : a.abridged_nodes = Except.ok ns)
    (hmap : ns.mapM (process_staker a cp bt) = Except.error e) :
    learn_nodes_cycle a write_points = ⟨Except.error e, [], []⟩ := by
  rw [learn_nodes_cycle_reduce a write_points bt cp ns hbt hcp hns, hmap]

theorem learn_nodes_cycle_write (a : StakingAgent)
    (write_points : List String → Bool) (bt cp : Nat) (ns : List String)
    (data : List String)
    (hbt : a.getBlockTimestamp = Except.ok bt)
    (hcp : a.get_current_period = Except.ok cp)
    (hns : a.abridged_nodes = Except.ok ns)
    (hdata : ns.mapM (process_staker a cp bt) = Except.ok data) :
    learn_nodes_cycle a write_points =
      if write_points data then ⟨Except.ok (), [data], []⟩
      else ⟨Except.ok (), [data], [unable_to_write_warning bt cp]⟩ := by
  rw [learn_nodes_cycle_reduce a write_points bt cp ns hbt hcp hns, hdata]

/-- C1: for N known participants, if no collaborator call raises during
the cycle, one node-sampling cycle submits a single batch of exactly N
line-protocol records, each an instance of the section-6 wire grammar
(`db_line_protocol`) with measurement `moe_network_info` and the current
period suffixed fields, and every record carries the one block timestamp
read at the start of the cycle as its sample time. -/
theorem moe_c1 (a : StakingAgent) (write_points : List String → Bool)
    (bt cp : Nat) (ns : List String)
    (hbt : a.getBlockTimestamp = Except.ok bt)
    (hcp : a.get_current_period = Except.ok cp)
    (hns : a.abridged_nodes = Except.ok ns)
    (hok : ∀ s ∈ ns, isOkE (a.get_worker_from_staker s) = true
      ∧ isOkE (a.owned_tokens s) = true
      ∧ isOkE (a.get_locked_tokens s) = true
      ∧ isOkE (a.stake_bounds s) = true
      ∧ isOkE (a.get_last_active_period s) = true) :
    ∃ data : List String,
      (learn_nodes_cycle a write_points).writes = [data]
      ∧ data.length = ns.length
      ∧ ∀ r ∈ data, ∃ f : LineFields, r = db_line_protocol f
          ∧ f.measurement = DB_MEASUREMENT ∧ f.current_period = cp
          ∧ f.timestamp = bt := by
  obtain ⟨data, hdata, hlen, hall⟩ := mapM_line_records a cp bt ns hok
  refine ⟨data, ?_, hlen, hall⟩
  rw [learn_nodes_cycle_write a write_points bt cp ns data hbt hcp hns hdata]
  by_cases hw : write_points data
  · rw [if_pos hw]
  · rw [if_neg hw]

theorem moe_c1_witness :
    ∃ data : List String,
      (learn_nodes_cycle agent_ok wr_true).writes = [data]
      ∧ data.length = (["0xabc"] : List String).length
      ∧ ∀ r ∈ data, ∃ f : LineFields, r = db_line_protocol f
          ∧ f.measurement = DB_MEASUREMENT ∧ f.current_period = 7
          ∧ f.timestamp = 1000 :=
  moe_c1 agent_ok wr_true 1000 7 ["0xabc"] rfl rfl rfl (by decide)

/-- C2: if any collaborator call raises during a node-sampling cycle, the
whole cycle aborts: nothing is written to the store, no warning is
logged, and the exception is the cycle result surfacing at the task
boundary; in particular an error from any per-staker processing step
propagates to the cycle result. -/
theorem moe_c2 (a : StakingAgent) (write_points : List String → Bool) :
    (∀ e, (learn_nodes_cycle a write_points).result = Except.error e →
      (learn_nodes_cycle a write_points).writes = []
        ∧ (learn_nodes_cycle a write_points).warns = [])
    ∧ (∀ bt cp ns e, a.getBlockTimestamp = Except.ok bt →
        a.get_current_period = Except.ok cp →
        a.abridged_nodes = Except.ok ns →
        ns.mapM (process_staker a cp bt) = Except.error e →
        (learn_nodes_cycle a write_points).result = Except.error e) := by
  constructor
  · intro e h
    cases h1 : a.getBlockTimestamp with
    | error e1 => rw [learn_nodes_cycle_err1 a write_points e1 h1]; exact ⟨rfl, rfl⟩
    | ok bt =>
      cases h2 : a.get_current_period with
      | error e1 => rw [learn_nodes_cycle_err2 a write_points bt e1 h1 h2]; exact ⟨rfl, rfl⟩
      | ok cp =>
        cases h3 : a.abridged_nodes with
        | error e1 => rw [learn_nodes_cycle_err3 a write_points bt cp e1 h1 h2 h3]; exact ⟨rfl, rfl⟩
        | ok ns =>
          cases h4 : ns.mapM (process_staker a cp bt) with
          | error e1 => rw [learn_nodes_cycle_err4 a write_points bt cp ns e1 h1 h2 h3 h4]; exact ⟨rfl, rfl⟩
          | ok data =>
            rw [learn_nodes_cycle_write a write_points bt cp ns data h1 h2 h3 h4] at h
            by_cases h5 : write_points data
            · rw [if_pos h5] at h; simp at h
            · rw [if_neg h5] at h; simp at h
  · intro bt cp ns e hbt hcp hns hmap
    rw [learn_nodes_cycle_err4 a write_points bt cp ns e hbt hcp hns hmap]

theorem moe_c2_witness :
    (learn_nodes_cycle agent_block_failure wr_true).result
        = Except.error (Err.err "connection lost")
    ∧ (learn_nodes_cycle agent_block_failure wr_true).writes = []
    ∧ (learn_nodes_cycle agent_block_failure wr_true).warns = [] :=
  ⟨rfl, (moe_c2 agent_block_failure wr_true).1 (Err.err "connection lost") rfl⟩

/-- C8: when the single batched write of a node-sampling cycle is
reported failed by the store, exactly one warning is logged, the write
was attempted exactly once (no retry, nothing buffered), the task body
still returns normally, and the crawler state is unchanged. -/
theorem moe_c8 (a : StakingAgent) (write_points : List String → Bool)
    (c : MoeBlockchainCrawler) (d : List String)
    (hw : (learn_nodes_cycle a write_points).writes = [d])
    (hfail : write_points d = false) :
    ∃ bt cp : Nat,
      a.getBlockTimestamp = Except.ok bt
      ∧ a.get_current_period = Except.ok cp
      ∧ learn_nodes_cycle a write_points
          = ⟨Except.ok (), [d], [unable_to_write_warning bt cp]⟩
      ∧ (c.learn_about_nodes a write_points).2 = c := by
  cases h1 : a.getBlockTimestamp with
  | error e1 => rw [learn_nodes_cycle_err1 a write_points e1 h1] at hw; simp at hw
  | ok bt =>
    cases h2 : a.get_current_period with
    | error e1 => rw [learn_nodes_cycle_err2 a write_points bt e1 h1 h2] at hw; simp at hw
    | ok cp =>
      cases h3 : a.abridged_nodes with
      | error e1 => rw [learn_nodes_cycle_err3 a write_points bt cp e1 h1 h2 h3] at hw; simp at hw
      | ok ns =>
        cases h4 : ns.mapM (process_staker a cp bt) with
        | error e1 => rw [learn_nodes_cycle_err4 a write_points bt cp ns e1 h1 h2 h3 h4] at hw; simp at hw
        | ok data =>
          have heq := learn_nodes_cycle_write a write_points bt cp ns data h1 h2 h3 h4
          rw [heq] at hw
          have hdd : data = d := by
            by_cases h5 : write_points data
            · rw [if_pos h5] at hw; simpa using hw
            · rw [if_neg h5] at hw; simpa using hw
          subst hdd
          rw [if_neg (by simp [hfail])] at heq
          exact ⟨bt, cp, rfl, rfl, heq, rfl⟩

theorem moe_c8_witness :
    ∃ bt cp : Nat,
      agent_ok.getBlockTimestamp = Except.ok bt
      ∧ agent_ok.get_current_period = Except.ok cp
      ∧ learn_nodes_cycle agent_ok wr_false
          = ⟨Except.ok (), [(learn_nodes_cycle agent_ok wr_false).writes.headI],
             [unable_to_write_warning bt cp]⟩
      ∧ (crawler_running.learn_about_nodes agent_ok wr_false).2 = crawler_running :=
  moe_c8 agent_ok wr_false crawler_running
    (learn_nodes_cycle agent_ok wr_false).writes.headI rfl rfl

theorem start_of_stopped (c : MoeBlockchainCrawler)
    (hn : c.node_learning_task.running = false)
    (hc : c.contract_learning_task.running = false) :
    c.start = Except.ok
      { c with
        client := some (c.client.getD
          { host := "localhost", port := 8086, database := DB_NAME }),
        node_learning_task :=
          { running := true, interval := some c.refresh_rate,
            startedNow := true },
        contract_learning_task :=
          { running := true, interval := some (c.refresh_rate - 2),
            startedNow := true } } := by
  cases hcl : c.client with
  | none =>
    simp [MoeBlockchainCrawler.start, MoeBlockchainCrawler.is_running,
          hn, hc, LoopingCall.start, hcl]
  | some cl =>
    simp [MoeBlockchainCrawler.start, MoeBlockchainCrawler.is_running,
          hn, hc, LoopingCall.start, hcl]

/-- C3 counterexample: the claim predicts that after a contract-task
failure, with restart enabled and the failed (contract) task not running,
exactly one `start()` call is issued; on the concrete state
`crawler_contract_failed` (node task still running) the error handler
issues zero `start()` calls. -/
theorem moe_c3_counterexample :
    ¬ (crawler_contract_failed.restart_on_error = true →
       crawler_contract_failed.task_running TaskKind.contract = false →
       crawler_contract_failed.handle_errors.1 = 1) := by
  decide

/-- C3 (amended): the error handler keys the restart decision on the
node-learning task only, whichever task failed: with
`restart_on_error = true`, exactly one `start()` call is issued when the
node task is found not running and none when it is running; and when both
tasks are stopped the single `start()` call leaves both tasks running. -/
theorem moe_c3 (c : MoeBlockchainCrawler) (h : c.restart_on_error = true) :
    (c.node_learning_task.running = false → c.handle_errors = (1, c.start))
    ∧ (c.node_learning_task.running = true →
        c.handle_errors = (0, Except.ok c))
    ∧ (c.node_learning_task.running = false →
        c.contract_learning_task.running = false →
        ∃ c', c.start = Except.ok c' ∧ c'.is_running = true) := by
  refine ⟨?_, ?_, ?_⟩
  · intro hn
    simp [MoeBlockchainCrawler.handle_errors, h, hn]
  · intro hn
    simp [MoeBlockchainCrawler.handle_errors, h, hn]
  · intro hn hc
    refine ⟨_, start_of_stopped c hn hc, ?_⟩
    simp [MoeBlockchainCrawler.is_running]

theorem moe_c3_witness :
    crawler_stopped.handle_errors = (1, crawler_stopped.start)
    ∧ (∃ c', crawler_stopped.start = Except.ok c'
        ∧ c'.is_running = true) :=
  ⟨(moe_c3 crawler_stopped rfl).1 rfl,
   (moe_c3 crawler_stopped rfl).2.2 rfl rfl⟩

/-- C9 counterexample: the claim promises that whenever the crawler is
not already running (`is_running = false`), `start()` begins both
periodic tasks.  On the concrete reachable state
`crawler_contract_failed` (contract task stopped after a failure, node
task still running) `is_running` is false, yet `start()` raises the
LoopingCall already-running assertion instead of returning a started
crawler. -/
theorem moe_c9_counterexample :
    crawler_contract_failed.is_running = false
    ∧ crawler_contract_failed.start = Except.error TaskErr.alreadyRunning := by
  decide

/-- C9 (amended): when both tasks are stopped, `start()` succeeds, holds
a store connection (reusing an existing one), starts the node-learning
task at the refresh rate and the contract-learning task at the refresh
rate minus the 2-second offset, both firing immediately, and leaves the
snapshot alone; when the crawler is already running, `start()` changes
nothing; in the mixed states where exactly one task is running
(`is_running` false but not both tasks stopped), `start()` raises the
LoopingCall already-running assertion instead of beginning the tasks. -/
theorem moe_c9 (c : MoeBlockchainCrawler) :
    (c.node_learning_task.running = false →
      c.contract_learning_task.running = false →
      ∃ c', c.start = Except.ok c'
        ∧ c'.client.isSome = true
        ∧ (∀ cl, c.client = some cl → c'.client = some cl)
        ∧ c'.node_learning_task
            = { running := true, interval := some c.refresh_rate,
                startedNow := true }
        ∧ c'.contract_learning_task
            = { running := true, interval := some (c.refresh_rate - 2),
                startedNow := true }
        ∧ c'.snapshot = c.snapshot)
    ∧ (c.is_running = true → c.start = Except.ok c)
    ∧ (c.node_learning_task.running = true →
        c.contract_learning_task.running = false →
        c.start = Except.error TaskErr.alreadyRunning)
    ∧ (c.node_learning_task.running = false →
        c.contract_learning_task.running = true →
        c.start = Except.error TaskErr.alreadyRunning) := by
  refine ⟨?_, ?_, ?_, ?_⟩
  · intro hn hc
    refine ⟨_, start_of_stopped c hn hc, by simp, ?_, rfl, rfl, rfl⟩
    intro cl hcl
    simp [hcl]
  · intro hr
    unfold MoeBlockchainCrawler.start
    rw [hr]
    simp
  · intro hn hc
    simp [MoeBlockchainCrawler.start, MoeBlockchainCrawler.is_running,
          hn, hc, LoopingCall.start]
  · intro hn hc
    simp [MoeBlockchainCrawler.start, MoeBlockchainCrawler.is_running,
          hn, hc, LoopingCall.start]

theorem moe_c9_witness :
    (∃ c', crawler_stopped.start = Except.ok c'
      ∧ c'.client.isSome = true
      ∧ (∀ cl, crawler_stopped.client = some cl → c'.client = some cl)
      ∧ c'.node_learning_task
          = { running := true, interval := some crawler_stopped.refresh_rate,
              startedNow := true }
      ∧ c'.contract_learning_task
          = { running := true,
              interval := some (crawler_stopped.refresh_rate - 2),
              startedNow := true }
      ∧ c'.snapshot = crawler_stopped.snapshot)
    ∧ crawler_running.start = Except.ok crawler_running
    ∧ crawler_contract_failed.start = Except.error TaskErr.alreadyRunning
    ∧ crawler_node_failed.start = Except.error TaskErr.alreadyRunning :=
  ⟨(moe_c9 crawler_stopped).1 rfl rfl, (moe_c9 crawler_running).2.1 rfl,
   (moe_c9 crawler_contract_failed).2.2.1 rfl rfl,
   (moe_c9 crawler_node_failed).2.2.2 rfl rfl⟩

theorem stop_of_running (c : MoeBlockchainCrawler)
    (hr : c.is_running = true) :
    c.stop = Except.ok
      { c with
        client := none,
        node_learning_task := { c.node_learning_task with running := false },
        contract_learning_task :=
          { c.contract_learning_task with running := false } } := by
  have hn : c.node_learning_task.running = true := by
    have h := hr
    simp [MoeBlockchainCrawler.is_running] at h
    exact h.1
  have hc : c.contract_learning_task.running = true := by
    have h := hr
    simp [MoeBlockchainCrawler.is_running] at h
    exact h.2
  simp [MoeBlockchainCrawler.stop, hr, LoopingCall.stop, hn, hc]

/-- C10: `stop()` never modifies the in-memory contract snapshot: any
successful `stop()` leaves the snapshot field exactly as it was, and on a
running crawler it halts both tasks and clears the store connection while
the snapshot stays unchanged. -/
theorem moe_c10 (c : MoeBlockchainCrawler) :
    (∀ c', c.stop = Except.ok c' → c'.snapshot = c.snapshot)
    ∧ (c.is_running = true →
        c.stop = Except.ok
          { c with
        client := none,
            node_learning_task :=
              { c.node_learning_task with running := false },
            contract_learning_task :=
              { c.contract_learning_task with running := false } }) := by
  constructor
  · intro c' h
    cases hr : c.is_running with
    | true =>
      rw [stop_of_running c hr] at h
      simp only [Except.ok.injEq] at h
      rw [← h]
    | false =>
      unfold MoeBlockchainCrawler.stop at h
      rw [hr] at h
      simp at h
      rw [← h]
  · exact stop_of_running c

theorem moe_c10_witness :
    crawler_running.stop = Except.ok
      { crawler_running with
        client := none,
        node_learning_task :=
          { crawler_running.node_learning_task with running := false },
        contract_learning_task :=
          { crawler_running.contract_learning_task with running := false } }
    ∧ ({ crawler_running with
        client := none,
        node_learning_task :=
          { crawler_running.node_learning_task with running := false },
        contract_learning_task :=
          { crawler_running.contract_learning_task with
            running := false } } : MoeBlockchainCrawler).snapshot
        = crawler_running.snapshot := by
  have h := (moe_c10 crawler_running).2 rfl
  exact ⟨h, (moe_c10 crawler_running).1 _ h⟩

theorem lookup_set_key {α : Type u} (m : List (String × α)) (k : String)
    (v : α) : lookup_key (set_key m k v) k = some v := by
  induction m with
  | nil => simp [set_key, lookup_key]
  | cons kv rest ih =>
    by_cases h : kv.1 == k
    · simp [set_key, h, lookup_key]
    · simp only [set_key, h, if_false, Bool.false_eq_true] at ih ⊢
      simp [lookup_key, List.find?, h] at ih ⊢
      exact ih

theorem mapM_token_counter (a : StakingAgent) (l : List Nat)
    (h : ∀ p ∈ l, isOkE (a.get_all_locked_tokens p) = true) :
    ∃ tc : List (Nat × Nat),
      l.mapM (fetch_locked_tokens a) = Except.ok tc
      ∧ tc.map Prod.fst = l
      ∧ ∀ p v, a.get_all_locked_tokens p = Except.ok v → p ∈ l →
          (p, v) ∈ tc := by
  induction l with
  | nil => exact ⟨[], rfl, rfl, by simp⟩
  | cons p rest ih =>
    obtain ⟨v0, hv0⟩ := (isOkE_iff _).mp (h p (by simp))
    obtain ⟨tc, htc, hkeys, hmem⟩ := ih (fun q hq => h q (by simp [hq]))
    refine ⟨(p, v0) :: tc, ?_, by simp [hkeys], ?_⟩
    · rw [List.mapM_cons,
        show fetch_locked_tokens a p = Except.ok (p, v0) by
          simp [fetch_locked_tokens, hv0],
        except_bind_ok, htc, except_bind_ok]
      rfl
    · intro q v hqv hq
      rcases List.mem_cons.mp hq with rfl | hq2
      · rw [hv0] at hqv
        injection hqv with h2
        rw [← h2]
        exact List.mem_cons_self _ _
      · exact List.mem_cons_of_mem _ (hmem q v hqv hq2)

/-- C6: a contract-sampling cycle on which the collaborator calls succeed
builds the complete period-to-tokens mapping, whose key list is exactly
the periods 1 through 365 and whose entry at each period is the
collaborator value for that period, and installs it under
`future_locked_tokens` in one single snapshot-dict assignment, wholesale
replacing any prior value. -/
theorem moe_c6 (a : StakingAgent) (c : MoeBlockchainCrawler)
    (h : ∀ p ∈ period_range, isOkE (a.get_all_locked_tokens p) = true) :
    ∃ (c' : MoeBlockchainCrawler) (token_counter : List (Nat × Nat)),
      c.learn_about_contracts a = Except.ok c'
      ∧ c'.snapshot = set_key c.snapshot "future_locked_tokens" token_counter
      ∧ lookup_key c'.snapshot "future_locked_tokens" = some token_counter
      ∧ token_counter.map Prod.fst = List.range' 1 365
      ∧ (∀ p v, a.get_all_locked_tokens p = Except.ok v →
          p ∈ period_range → (p, v) ∈ token_counter) := by
  obtain ⟨tc, htc, hkeys, hmem⟩ := mapM_token_counter a period_range h
  refine ⟨{ c with snapshot := set_key c.snapshot "future_locked_tokens" tc },
    tc, ?_, rfl, lookup_set_key c.snapshot "future_locked_tokens" tc,
    hkeys, hmem⟩
  unfold MoeBlockchainCrawler.learn_about_contracts
  rw [htc]

theorem moe_c6_witness :
    ∃ (c' : MoeBlockchainCrawler) (token_counter : List (Nat × Nat)),
      crawler_stopped.learn_about_contracts agent_ok = Except.ok c'
      ∧ c'.snapshot
          = set_key crawler_stopped.snapshot "future_locked_tokens"
              token_counter
      ∧ lookup_key c'.snapshot "future_locked_tokens" = some token_counter
      ∧ token_counter.map Prod.fst = List.range' 1 365
      ∧ (∀ p v, agent_ok.get_all_locked_tokens p = Except.ok v →
          p ∈ period_range → (p, v) ∈ token_counter) :=
  moe_c6 agent_ok crawler_stopped (fun _ _ => rfl)

theorem filter_db_empty_iff (l : List InfluxDatabase) :
    ((l.filter (fun db => db.name == DB_NAME)).length == 0) = true
      ↔ ¬ ∃ db ∈ l, db.name = DB_NAME := by
  rw [beq_iff_eq, List.length_eq_zero, List.filter_eq_nil_iff]
  simp

theorem ensure_db_exists_found (s : InfluxState)
    (hex : ∃ db ∈ s.databases, db.name = DB_NAME) :
    ensure_db_exists s = (s, []) := by
  have h1 : ((s.databases.filter (fun db => db.name == DB_NAME)).length == 0)
      = false := by
    rw [Bool.eq_false_iff]
    intro hc
    exact (filter_db_empty_iff s.databases).mp hc hex
  simp [ensure_db_exists, h1]

theorem ensure_db_exists_missing (s : InfluxState)
    (hnex : ¬ ∃ db ∈ s.databases, db.name = DB_NAME) :
    ensure_db_exists s =
      ({ databases := s.databases ++ [{ name := DB_NAME }],
         retention_policies :=
           s.retention_policies ++ [network_info_retention_policy] },
       [DbOp.createDatabase DB_NAME,
        DbOp.createRetentionPolicy network_info_retention_policy]) := by
  have h1 : ((s.databases.filter (fun db => db.name == DB_NAME)).length == 0)
      = true := (filter_db_empty_iff s.databases).mpr hnex
  simp [ensure_db_exists, h1, create_database, create_retention_policy]

/-- C7: schema bootstrap is idempotent: if a database named `network`
already exists, `_ensure_db_exists` leaves the store untouched and
performs no operation; if it is absent, the database is created together
with the `network_info_retention` policy (5w, replication 1, default);
and a second run right after a first run is always a no-op, so running it
twice never creates a duplicate database or duplicate policy. -/
theorem moe_c7 (s : InfluxState) :
    ((∃ db ∈ s.databases, db.name = DB_NAME) → ensure_db_exists s = (s, []))
    ∧ ((¬ ∃ db ∈ s.databases, db.name = DB_NAME) →
        ensure_db_exists s =
          ({ databases := s.databases ++ [{ name := DB_NAME }],
             retention_policies :=
               s.retention_policies ++ [network_info_retention_policy] },
           [DbOp.createDatabase DB_NAME,
            DbOp.createRetentionPolicy network_info_retention_policy]))
    ∧ ensure_db_exists (ensure_db_exists s).1 = ((ensure_db_exists s).1, []) := by
  refine ⟨ensure_db_exists_found s, ensure_db_exists_missing s, ?_⟩
  by_cases hex : ∃ db ∈ s.databases, db.name = DB_NAME
  · rw [ensure_db_exists_found s hex]
    exact ensure_db_exists_found s hex
  · rw [ensure_db_exists_missing s hex]
    apply ensure_db_exists_found
    exact ⟨{ name := DB_NAME }, by simp, rfl⟩

theorem moe_c7_witness :
    ensure_db_exists influx_empty =
      ({ databases := [{ name := DB_NAME }],
         retention_policies := [network_info_retention_policy] },
       [DbOp.createDatabase DB_NAME,
        DbOp.createRetentionPolicy network_info_retention_policy])
    ∧ ensure_db_exists (ensure_db_exists influx_empty).1
        = ((ensure_db_exists influx_empty).1, []) := by
  have h := moe_c7 influx_empty
  refine ⟨?_, h.2.2⟩
  have h2 := h.2.1 (by simp [influx_empty])
  simpa [influx_empty] using h2

theorem locked_row_entry_eq (r : SumRow) (d : Int) (v : ℚ) :
    locked_row_to_entry r = some (d, v)
      ↔ r.time = d ∧ r.sum = some v ∧ v ≠ 0 := by
  cases hs : r.sum with
  | none => simp [locked_row_to_entry, hs]
  | some x =>
    by_cases hx : x = 0
    · subst hx
      simp only [locked_row_to_entry, hs, if_pos rfl]
      constructor
      · intro h
        cases h
      · rintro ⟨h1, h2, h3⟩
        injection h2 with h2
        exact absurd h2.symm h3
    · simp only [locked_row_to_entry, hs, if_neg hx]
      constructor
      · intro h
        injection h with h
        injection h with h1 h2
        exact ⟨h1, by rw [← h2], by rw [← h2]; exact hx⟩
      · rintro ⟨h1, h2, h3⟩
        injection h2 with h2
        rw [h1, h2]

theorem count_row_entry_eq (r : CountRow) (d : Int) (v : ℚ) :
    count_row_to_entry r = some (d, v)
      ↔ r.time = d ∧ r.count = some v ∧ v ≠ 0 := by
  cases hs : r.count with
  | none => simp [count_row_to_entry, hs]
  | some x =>
    by_cases hx : x = 0
    · subst hx
      simp only [count_row_to_entry, hs, if_pos rfl]
      constructor
      · intro h
        cases h
      · rintro ⟨h1, h2, h3⟩
        injection h2 with h2
        exact absurd h2.symm h3
    · simp only [count_row_to_entry, hs, if_neg hx]
      constructor
      · intro h
        injection h with h
        injection h with h1 h2
        exact ⟨h1, by rw [← h2], by rw [← h2]; exact hx⟩
      · rintro ⟨h1, h2, h3⟩
        injection h2 with h2
        rw [h1, h2]

/-- C4: for any store result set, the locked-stake series keeps an entry
for a day exactly when that day's aggregate sum row is non-null and
non-zero, and the staker-count series keeps an entry for a day exactly
when that day's distinct-count row is non-null and non-zero; no returned
entry carries value 0, and empty days are simply absent. -/
theorem moe_c4 (client : MoeCrawlerDBClient) (now : Int) (days : Nat)
    (_h : 1 ≤ days) :
    (∀ d v, (d, v) ∈ get_historical_locked_tokens_over_range client now days
      ↔ ∃ r ∈ client.query_sum (issued_locked_tokens_query now days),
          r.time = d ∧ r.sum = some v ∧ v ≠ 0)
    ∧ (∀ d v,
        (d, v) ∈ get_historical_locked_tokens_over_range client now days →
        v ≠ 0)
    ∧ (∀ d v, (d, v) ∈ get_historical_num_stakers_over_range client now days
      ↔ ∃ r ∈ client.query_count (issued_num_stakers_query now days),
          r.time = d ∧ r.count = some v ∧ v ≠ 0)
    ∧ (∀ d v,
        (d, v) ∈ get_historical_num_stakers_over_range client now days →
        v ≠ 0) := by
  have hsum : ∀ d v,
      (d, v) ∈ get_historical_locked_tokens_over_range client now days
      ↔ ∃ r ∈ client.query_sum (issued_locked_tokens_query now days),
          r.time = d ∧ r.sum = some v ∧ v ≠ 0 := by
    intro d v
    unfold get_historical_locked_tokens_over_range
    rw [List.mem_filterMap]
    constructor
    · rintro ⟨r, hr, hre⟩
      exact ⟨r, hr, (locked_row_entry_eq r d v).mp hre⟩
    · rintro ⟨r, hr, h1, h2, h3⟩
      exact ⟨r, hr, (locked_row_entry_eq r d v).mpr ⟨h1, h2, h3⟩⟩
  have hcount : ∀ d v,
      (d, v) ∈ get_historical_num_stakers_over_range client now days
      ↔ ∃ r ∈ client.query_count (issued_num_stakers_query now days),
          r.time = d ∧ r.count = some v ∧ v ≠ 0 := by
    intro d v
    unfold get_historical_num_stakers_over_range
    rw [List.mem_filterMap]
    constructor
    · rintro ⟨r, hr, hre⟩
      exact ⟨r, hr, (count_row_entry_eq r d v).mp hre⟩
    · rintro ⟨r, hr, h1, h2, h3⟩
      exact ⟨r, hr, (count_row_entry_eq r d v).mpr ⟨h1, h2, h3⟩⟩
  refine ⟨hsum, ?_, hcount, ?_⟩
  · intro d v hm
    obtain ⟨r, hr, h1, h2, h3⟩ := (hsum d v).mp hm
    exact h3
  · intro d v hm
    obtain ⟨r, hr, h1, h2, h3⟩ := (hcount d v).mp hm
    exact h3

theorem moe_c4_witness :
    1 ≤ 7
    ∧ ((0, (5 : ℚ))
        ∈ get_historical_locked_tokens_over_range db_client_sample 0 7) := by
  refine ⟨by norm_num, ?_⟩
  exact ((moe_c4 db_client_sample 0 7 (by norm_num)).1 0 5).mpr
    ⟨⟨0, some 5⟩, by simp [db_client_sample], rfl, rfl, by norm_num⟩

/-- C5: for days at least 1, the issued historical locked-stake query is
exactly the spec query: its window is the half-open range from today
midnight UTC minus `days - 1` days up to today midnight UTC plus one day
(a nonempty window), and it is the two-level aggregation whose inner
query groups by participant and 1-day bucket taking LAST of locked
stake, and whose outer query sums those values per 1-day bucket. -/
theorem moe_c5 (now : Int) (days : Nat) (h : 1 ≤ days) :
    issued_locked_tokens_query now days
        = spec_locked_tokens_query (midnight_utc now) days
    ∧ (issued_locked_tokens_query now days).time_ge ≤ midnight_utc now
    ∧ (issued_locked_tokens_query now days).time_ge
        < (issued_locked_tokens_query now days).time_lt
    ∧ (∀ t : Int,
        ((issued_locked_tokens_query now days).time_ge ≤ t
          ∧ t < (issued_locked_tokens_query now days).time_lt)
        ↔ (midnight_utc now - ((days : Int) - 1) * 86400 ≤ t
            ∧ t < midnight_utc now + 86400))
    ∧ (issued_locked_tokens_query now days).outer_select = "SUM(locked_stake)"
    ∧ (issued_locked_tokens_query now days).inner_last_field
        = "LAST(locked_stake) AS locked_stake"
    ∧ (issued_locked_tokens_query now days).inner_group_by
        = ["staker_address", "time(1d)"]
    ∧ (issued_locked_tokens_query now days).outer_group_by = "time(1d)" := by
  have hd : (1 : Int) ≤ (days : Int) := by exact_mod_cast h
  have h0 : (0 : Int) ≤ ((days : Int) - 1) * 86400 := by nlinarith
  refine ⟨rfl, ?_, ?_, fun t => Iff.rfl, rfl, rfl, rfl, rfl⟩
  · show midnight_utc now - ((days : Int) - 1) * 86400 ≤ midnight_utc now
    linarith
  · show midnight_utc now - ((days : Int) - 1) * 86400
        < midnight_utc now + 86400
    linarith

theorem moe_c5_witness :
    issued_locked_tokens_query 0 7
        = spec_locked_tokens_query (midnight_utc 0) 7
    ∧ (issued_locked_tokens_query 0 7).time_ge
        < (issued_locked_tokens_query 0 7).time_lt :=
  ⟨(moe_c5 0 7 (by norm_num)).1, (moe_c5 0 7 (by norm_num)).2.2.1⟩
